import Mathlib

/-!
Shallow embedding of the lifecycle-orchestration core of the llm-manager-api
repository: the per-model state machine (`api/services/model_state_machine.py`),
the deployment health check (`api/models/deployment.py`,
`api/services/deployment_service.py`), the download task lifecycle
(`api/models/download_task.py`, `api/services/download_service.py`,
`tasks/download_tasks.py`) and port allocation (`api/services/system_service.py`).
Definitions mirror the Python source; theorems settle the specification claims.
-/

namespace LlmManager

/-- Model business states, mirroring `ModelState` in model_state_machine.py. -/
inductive ModelState where
  | inactive
  | downloading
  | deploying
  | active
  | training
  | error
  deriving DecidableEq, Repr, Fintype

/-- String value of a state (the `.value` of the Python enum member). -/
def ModelState.value : ModelState → String
  | .inactive => "inactive"
  | .downloading => "downloading"
  | .deploying => "deploying"
  | .active => "active"
  | .training => "training"
  | .error => "error"

/-- Parsing a stored status string back into a state, mirroring the
`ModelState(model.status)` constructor call: `none` models the `ValueError`
branch for an unrecognized string. -/
def modelStateOfString (s : String) : Option ModelState :=
  if s = "inactive" then some .inactive
  else if s = "downloading" then some .downloading
  else if s = "deploying" then some .deploying
  else if s = "active" then some .active
  else if s = "training" then some .training
  else if s = "error" then some .error
  else none

/-- Model lifecycle events, mirroring `ModelEvent` in model_state_machine.py. -/
inductive ModelEvent where
  | download_started
  | download_completed
  | download_failed
  | download_cancelled
  | deploy_started
  | deploy_completed
  | deploy_failed
  | deploy_stopped
  | health_check_failed
  | manual_error_set
  | manual_reset
  deriving DecidableEq, Repr, Fintype

/-- String value of an event (the `.value` of the Python enum member). -/
def ModelEvent.value : ModelEvent → String
  | .download_started => "download_started"
  | .download_completed => "download_completed"
  | .download_failed => "download_failed"
  | .download_cancelled => "download_cancelled"
  | .deploy_started => "deploy_started"
  | .deploy_completed => "deploy_completed"
  | .deploy_failed => "deploy_failed"
  | .deploy_stopped => "deploy_stopped"
  | .health_check_failed => "health_check_failed"
  | .manual_error_set => "manual_error_set"
  | .manual_reset => "manual_reset"

namespace ModelStateMachine

/-- The `TRANSITIONS` dict of `ModelStateMachine`, as an association list in
the dict's insertion order (Python dicts iterate in insertion order, which the
valid-events listing relies on). -/
def transitionsList : List ((ModelState × ModelEvent) × ModelState) :=
  [((.inactive, .download_started), .downloading),
   ((.inactive, .deploy_started), .deploying),
   ((.downloading, .download_completed), .inactive),
   ((.downloading, .download_failed), .error),
   ((.downloading, .download_cancelled), .inactive),
   ((.downloading, .deploy_started), .deploying),
   ((.deploying, .deploy_completed), .active),
   ((.deploying, .deploy_failed), .error),
   ((.active, .deploy_stopped), .inactive),
   ((.active, .health_check_failed), .error),
   ((.active, .deploy_started), .deploying),
   ((.active, .download_started), .downloading),
   ((.error, .download_started), .downloading),
   ((.error, .deploy_started), .deploying),
   ((.error, .manual_reset), .inactive),
   ((.training, .manual_reset), .inactive),
   ((.inactive, .manual_error_set), .error),
   ((.downloading, .manual_error_set), .error),
   ((.deploying, .manual_error_set), .error),
   ((.active, .manual_error_set), .error),
   ((.training, .manual_error_set), .error)]

/-- `TRANSITIONS[(state, event)]` lookup (`dict.get`). -/
def TRANSITIONS (s : ModelState) (e : ModelEvent) : Option ModelState :=
  (transitionsList.find? (fun p => p.1.1 = s ∧ p.1.2 = e)).map (·.2)

/-- `get_valid_transitions`: the events with an entry for `current_state`,
in table insertion order. -/
def get_valid_transitions (s : ModelState) : List ModelEvent :=
  transitionsList.filterMap (fun p => if p.1.1 = s then some p.1.2 else none)

/-- `can_transition`: `(current_state, event) in TRANSITIONS`. -/
def can_transition (s : ModelState) (e : ModelEvent) : Bool :=
  (TRANSITIONS s e).isSome

/-- `get_next_state`: `TRANSITIONS.get((current_state, event))`. -/
def get_next_state (s : ModelState) (e : ModelEvent) : Option ModelState :=
  TRANSITIONS s e

end ModelStateMachine

/-- The mutable columns of a `Model` row that the state machine touches.
`status` is a nullable string column. -/
structure ModelRow where
  status : Option String
  updatedAt : Nat
  deriving DecidableEq, Repr

/-- Current state derivation inside `transition`/`get_model_state`:
`ModelState(model.status) if model.status else ModelState.INACTIVE`, with a
`ValueError` on an unrecognized string also defaulting to `INACTIVE`. -/
def currentStateOfRow (row : ModelRow) : ModelState :=
  match row.status with
  | none => .inactive
  | some s => (modelStateOfString s).getD .inactive

/-- One state-change history record as assembled by `_record_state_change`.
`forceSet` projects whether the `event_data` dict carries `force_set: True`
(the flag `force_state` always attaches). -/
structure StateChangeRecord where
  oldStatus : Option String
  newStatus : String
  event : ModelEvent
  forceSet : Bool
  timestamp : Nat
  deriving DecidableEq, Repr

/-- One ModelStatus publication assembled by `_notify_state_change`. -/
structure StatusNotification where
  oldStatus : Option String
  newStatus : String
  deriving DecidableEq, Repr

/-- The `(applied, error)` pair returned by `transition`/`force_state`. -/
structure TransitionResult where
  applied : Bool
  errorMsg : Option String
  deriving DecidableEq, Repr

/-- Everything a state-machine call can touch: the returned pair, the stored
row afterwards, the history records appended, and the notifications that were
actually delivered. -/
structure MachineOutcome where
  result : TransitionResult
  row : Option ModelRow
  history : List StateChangeRecord
  published : List StatusNotification
  deriving DecidableEq, Repr

namespace ModelStateMachine

/-- The not-found message `f"Model not found: {model_id} ({model_source})"`. -/
def modelNotFoundMsg (modelId modelSource : String) : String :=
  "Model not found: " ++ modelId ++ " (" ++ modelSource ++ ")"

/-- The illegal-transition message, built from the valid events of the current
state exactly as the f-string in `transition` does. -/
def invalidTransitionMsg (current : ModelState) (event : ModelEvent) : String :=
  "Invalid transition: " ++ current.value ++ " -> " ++ event.value ++
    ". Valid events: [" ++
    String.intercalate ", " ((get_valid_transitions current).map ModelEvent.value) ++ "]"

/-- `ModelStateMachine.transition`. `row?` is the row-locked query result
(`none` = model missing); `eventDataForce` projects whether the caller's
`event_data` contains `force_set: True`; `notifyOk` is false when the
best-effort `_notify_state_change` raises (its exception is caught, so the
only difference is that nothing gets published); `now` stands for
`datetime.utcnow()`. -/
def transition (modelId modelSource : String) (row? : Option ModelRow)
    (event : ModelEvent) (eventDataForce : Bool) (notifyOk : Bool)
    (now : Nat) : MachineOutcome :=
  match row? with
  | none =>
      { result := ⟨false, some (modelNotFoundMsg modelId modelSource)⟩,
        row := none, history := [], published := [] }
  | some row =>
      let current := currentStateOfRow row
      match TRANSITIONS current event with
      | none =>
          { result := ⟨false, some (invalidTransitionMsg current event)⟩,
            row := some row, history := [], published := [] }
      | some newState =>
          if current ≠ newState then
            { result := ⟨true, none⟩,
              row := some { status := some newState.value, updatedAt := now },
              history := [⟨row.status, newState.value, event, eventDataForce, now⟩],
              published :=
                if notifyOk then [⟨row.status, newState.value⟩] else [] }
          else
            { result := ⟨true, some "Already in target state"⟩,
              row := some row, history := [], published := [] }

/-- `ModelStateMachine.force_state`: writes the target unconditionally and
records the change with event `MANUAL_RESET` and `event_data = force_set: True`. -/
def force_state (modelId modelSource : String) (row? : Option ModelRow)
    (target : ModelState) (notifyOk : Bool) (now : Nat) : MachineOutcome :=
  match row? with
  | none =>
      { result := ⟨false, some (modelNotFoundMsg modelId modelSource)⟩,
        row := none, history := [], published := [] }
  | some row =>
      { result := ⟨true, none⟩,
        row := some { status := some target.value, updatedAt := now },
        history := [⟨row.status, target.value, .manual_reset, true, now⟩],
        published := if notifyOk then [⟨row.status, target.value⟩] else [] }

end ModelStateMachine

/-- The columns of a `Deployment` row touched by the health-check path. -/
structure DeploymentState where
  status : String
  healthStatus : String
  lastHealthCheck : Option Nat
  deriving DecidableEq, Repr

/-- `Deployment.update_health_status`: always records the new health value and
the check time; returns whether the edge-triggered `health_check_failed` model
event was raised (only on entering `unhealthy` from a different value). -/
def Deployment.update_health_status (dep : DeploymentState) (status : String)
    (now : Nat) : DeploymentState × Bool :=
  let triggered := status == "unhealthy" && dep.healthStatus != "unhealthy"
  ({ dep with healthStatus := status, lastHealthCheck := some now }, triggered)

/-- The health value that one `check_deployment_health` call observes and
feeds to `update_health_status`: `unhealthy` when the deployment is not
`running`, `unhealthy` when the process liveness check fails, otherwise
`healthy`/`unhealthy` from the HTTP probe (a `RequestException` is caught
inside and counts as an unhealthy probe), and `error` when an unexpected
exception escapes to the outer handler (`probe = none`). -/
def observedHealth (dep : DeploymentState) (containerAlive : Bool)
    (probe : Option Bool) : String :=
  if dep.status ≠ "running" then "unhealthy"
  else if ¬containerAlive then "unhealthy"
  else
    match probe with
    | some true => "healthy"
    | some false => "unhealthy"
    | none => "error"

/-- `DeploymentService.check_deployment_health` for an existing deployment:
routes every branch through `update_health_status` and, on a failed liveness
check, additionally forces `status = stopped`. Returns the updated row and
whether `health_check_failed` was raised. -/
def DeploymentService.check_deployment_health (dep : DeploymentState)
    (containerAlive : Bool) (probe : Option Bool) (now : Nat) :
    DeploymentState × Bool :=
  if dep.status ≠ "running" then
    Deployment.update_health_status dep "unhealthy" now
  else if ¬containerAlive then
    let (d, ev) := Deployment.update_health_status dep "unhealthy" now
    ({ d with status := "stopped" }, ev)
  else
    match probe with
    | some true => Deployment.update_health_status dep "healthy" now
    | some false => Deployment.update_health_status dep "unhealthy" now
    | none => Deployment.update_health_status dep "error" now

/-- The columns of a `DownloadTask` row that the lifecycle methods touch. -/
structure DownloadTaskRow where
  status : String
  progress : ℚ
  downloadSize : Nat
  totalSize : Option Nat
  downloadSpeed : Option ℚ
  filePath : Option String
  updatedAt : Nat
  completedAt : Option Nat
  deriving DecidableEq, Repr

namespace DownloadTask

/-- `DownloadTask.update_progress(downloaded_size, total_size, speed)`:
assigns `download_size`, keeps `total_size`/`download_speed` unless a truthy
(non-`None`, non-zero) value is passed, and recomputes the percentage when a
positive total is known. The status is not touched. -/
def update_progress (t : DownloadTaskRow) (downloadedSize : Nat)
    (totalSize : Option Nat) (speed : Option ℚ) (now : Nat) : DownloadTaskRow :=
  let t1 := { t with downloadSize := downloadedSize }
  let t2 :=
    match totalSize with
    | some ts => if ts ≠ 0 then { t1 with totalSize := some ts } else t1
    | none => t1
  let t3 :=
    match speed with
    | some sp => if sp ≠ 0 then { t2 with downloadSpeed := some sp } else t2
    | none => t2
  let t4 :=
    match t3.totalSize with
    | some ts =>
        if 0 < ts then
          { t3 with progress := ((downloadedSize : ℚ) / (ts : ℚ)) * 100 }
        else t3
    | none => t3
  { t4 with updatedAt := now }

/-- `DownloadTask.start_download`: sets `downloading` and raises
`download_started` through the state machine. -/
def start_download (t : DownloadTaskRow) (now : Nat) :
    DownloadTaskRow × List ModelEvent :=
  ({ t with status := "downloading", updatedAt := now }, [.download_started])

/-- `DownloadTask.pause_download`: sets `paused` and deliberately raises no
state-machine event. -/
def pause_download (t : DownloadTaskRow) (now : Nat) :
    DownloadTaskRow × List ModelEvent :=
  ({ t with status := "paused", updatedAt := now }, [])

/-- `DownloadTask.resume_download`: sets `downloading` and raises
`download_started` again. -/
def resume_download (t : DownloadTaskRow) (now : Nat) :
    DownloadTaskRow × List ModelEvent :=
  ({ t with status := "downloading", updatedAt := now }, [.download_started])

/-- `DownloadTask.complete_download`: sets `completed`, forces
`progress = 100` and raises `download_completed`. -/
def complete_download (t : DownloadTaskRow) (now : Nat) :
    DownloadTaskRow × List ModelEvent :=
  ({ t with
      status := "completed"
      progress := 100
      completedAt := some now
      updatedAt := now }, [.download_completed])

/-- `DownloadTask.fail_download`: sets `failed` and raises `download_failed`. -/
def fail_download (t : DownloadTaskRow) (now : Nat) :
    DownloadTaskRow × List ModelEvent :=
  ({ t with status := "failed", updatedAt := now }, [.download_failed])

/-- `DownloadTask.cancel_download`: sets `cancelled` and raises
`download_cancelled`. -/
def cancel_download (t : DownloadTaskRow) (now : Nat) :
    DownloadTaskRow × List ModelEvent :=
  ({ t with status := "cancelled", updatedAt := now }, [.download_cancelled])

end DownloadTask

/-- One file-completion event reported by the huggingface hub to the
`ProgressTracker` in `download_model_with_snapshot`: the completed file's size
and the speed estimate the celery callback computes for that tick. -/
structure ProgressEvent where
  fileSize : Nat
  speed : Option ℚ
  time : Nat
  deriving DecidableEq, Repr

/-- The trajectory of the task row under the in-repo progress pipeline: the
`ProgressTracker` accumulates `downloaded_size += size` per completed file and
the celery `progress_callback` persists it via `update_progress` with the
known total. Returns the row after each callback. -/
def progressTrajectory (t : DownloadTaskRow) (acc : Nat) (total : Nat) :
    List ProgressEvent → List DownloadTaskRow
  | [] => []
  | ev :: rest =>
      let acc' := acc + ev.fileSize
      let t' := DownloadTask.update_progress t acc' (some total) ev.speed ev.time
      t' :: progressTrajectory t' acc' total rest

/-- The error kinds from `api/utils/exceptions.py` that the download and
deployment services raise on the paths modelled here. `modelNotFoundError`
(`ModelNotFoundError`) and `notFoundError` (`NotFoundError`) are distinct
classes in the source. -/
inductive ApiErrorKind where
  | validationError
  | notFoundError
  | modelNotFoundError
  | conflictError
  | storageError
  | downloadError
  deriving DecidableEq, Repr

/-- `DownloadService.pause_download`: not-found and illegal-state checks, then
`task.pause_download` (which raises no model event). An `Except.error` result
models a raise before any mutation was committed. -/
def DownloadService.pause_download (task? : Option DownloadTaskRow)
    (now : Nat) : Except ApiErrorKind (DownloadTaskRow × List ModelEvent) :=
  match task? with
  | none => .error .notFoundError
  | some t =>
      if t.status ≠ "downloading" then .error .validationError
      else .ok (DownloadTask.pause_download t now)

/-- What sits at the task's `file_path` on disk: nothing, a regular file, or
a directory with the given entries. -/
inductive FsEntry where
  | absent
  | file
  | dir (entries : List String)
  deriving DecidableEq, Repr

/-- The partial-file removal step of `cancel_download`: `os.remove` for a
file, `shutil.rmtree` (recursive) for a directory, nothing when the path does
not exist or the task has no `file_path`. -/
def removePartialFiles (filePath : Option String) (fs : FsEntry) : FsEntry :=
  match filePath with
  | none => fs
  | some _ =>
      match fs with
      | .absent => .absent
      | .file => .absent
      | .dir _ => .absent

/-- `DownloadService.cancel_download`: not-found check, illegal from
`completed`/`cancelled`, otherwise `task.cancel_download` (which sets
`cancelled` and raises `download_cancelled`) followed by partial-file
removal. -/
def DownloadService.cancel_download (task? : Option DownloadTaskRow)
    (fs : FsEntry) (now : Nat) :
    Except ApiErrorKind (DownloadTaskRow × List ModelEvent × FsEntry) :=
  match task? with
  | none => .error .notFoundError
  | some t =>
      if t.status = "completed" ∨ t.status = "cancelled" then
        .error .validationError
      else
        let (t', evs) := DownloadTask.cancel_download t now
        .ok (t', evs, removePartialFiles t'.filePath fs)

namespace SystemService

/-- `SystemService.check_port_availability`: available iff no listening
socket is bound to the port (`isBound` abstracts the `psutil` scan). -/
def check_port_availability (isBound : Nat → Bool) (port : Nat) : Bool :=
  !isBound port

/-- `SystemService.find_available_port`: scan `range(start_port, end_port+1)`
ascending and return the first available port. -/
def find_available_port (isBound : Nat → Bool) (startPort endPort : Nat) :
    Option Nat :=
  (List.range' startPort (endPort + 1 - startPort)).find?
    (fun p => check_port_availability isBound p)

end SystemService

/-- `DeploymentService._allocate_port`: a truthy preferred port is accepted
only when currently available (`ValidationError` otherwise); with no preferred
port the 8000-9000 range is scanned. -/
def DeploymentService.allocate_port (preferred : Option Nat)
    (isBound : Nat → Bool) : Except ApiErrorKind (Option Nat) :=
  match preferred with
  | some p =>
      if p ≠ 0 then
        if SystemService.check_port_availability isBound p then .ok (some p)
        else .error .validationError
      else .ok (SystemService.find_available_port isBound 8000 9000)
  | none => .ok (SystemService.find_available_port isBound 8000 9000)

/-- The port-allocation step of `create_deployment`: a `None` result from
`_allocate_port` makes `create` fail with a `ValidationError`. -/
def DeploymentService.create_deployment_port (preferred : Option Nat)
    (isBound : Nat → Bool) : Except ApiErrorKind Nat :=
  match DeploymentService.allocate_port preferred isBound with
  | .error e => .error e
  | .ok none => .error .validationError
  | .ok (some p) => if p ≠ 0 then .ok p else .error .validationError

/-- Folding a list of raised model events through `ModelStateMachine.transition`
on the stored row: the aggregate effect on the model's status of the events a
task operation raised. -/
def applyModelEvents (modelId modelSource : String) (row? : Option ModelRow)
    (events : List ModelEvent) (now : Nat) : Option ModelRow :=
  events.foldl
    (fun r e => (ModelStateMachine.transition modelId modelSource r e false true now).row)
    row?

/-- No entry of the transition table maps a state to itself, so a table hit
always changes the stored status. -/
lemma TRANSITIONS_irreflexive :
    ∀ s e n, ModelStateMachine.TRANSITIONS s e = some n → s ≠ n := by decide

/-- The valid-events listing contains exactly the events with a table entry
for the given state. -/
lemma mem_get_valid_transitions :
    ∀ s e, e ∈ ModelStateMachine.get_valid_transitions s ↔
      ModelStateMachine.can_transition s e = true := by decide

/-- Every history record appended by `transition` carries the caller's
`event_data` force flag, never a flag of its own. -/
lemma transition_history_forceSet (modelId modelSource : String)
    (row? : Option ModelRow) (e : ModelEvent) (d ok : Bool) (now : Nat) :
    ∀ r ∈ (ModelStateMachine.transition modelId modelSource row? e d ok now).history,
      r.forceSet = d := by
  intro r hr
  cases row? with
  | none => simp [ModelStateMachine.transition] at hr
  | some row =>
    simp only [ModelStateMachine.transition] at hr
    split at hr
    · simp at hr
    · split at hr
      · simp at hr
        subst hr
        rfl
      · simp at hr

/-- C1: for an existing model row, a `(currentState, event)` pair with a table
entry makes `transition` return `applied = true` and write exactly the table's
next state; a pair without an entry returns `applied = false` with the message
listing the events valid in the current state (and only those), leaving the
stored row unchanged. -/
theorem transition_table_complete_correct (modelId modelSource : String)
    (row : ModelRow) (e : ModelEvent) (d ok : Bool) (now : Nat) :
    (∀ next, ModelStateMachine.TRANSITIONS (currentStateOfRow row) e = some next →
      ((ModelStateMachine.transition modelId modelSource (some row) e d ok now).result.applied
          = true ∧
       (ModelStateMachine.transition modelId modelSource (some row) e d ok now).row
          = some { status := some next.value, updatedAt := now })) ∧
    (ModelStateMachine.TRANSITIONS (currentStateOfRow row) e = none →
      ((ModelStateMachine.transition modelId modelSource (some row) e d ok now).result.applied
          = false ∧
       (ModelStateMachine.transition modelId modelSource (some row) e d ok now).result.errorMsg
          = some (ModelStateMachine.invalidTransitionMsg (currentStateOfRow row) e) ∧
       (ModelStateMachine.transition modelId modelSource (some row) e d ok now).row
          = some row ∧
       ∀ e2, e2 ∈ ModelStateMachine.get_valid_transitions (currentStateOfRow row) ↔
          ModelStateMachine.can_transition (currentStateOfRow row) e2 = true)) := by
  constructor
  · intro next h
    have hne : currentStateOfRow row ≠ next := TRANSITIONS_irreflexive _ _ _ h
    simp [ModelStateMachine.transition, h, hne]
  · intro h
    refine ⟨?_, ?_, ?_, fun e2 => mem_get_valid_transitions _ e2⟩ <;>
      simp [ModelStateMachine.transition, h]

/-- Witness for C1: a table hit (`inactive`, `download_started`) applies and
writes `downloading`; a table miss (`deploying`, `download_started`) fails and
leaves the row unchanged. -/
theorem transition_table_complete_correct_witness :
    (ModelStateMachine.transition "m1" "huggingface" (some ⟨some "inactive", 0⟩)
        .download_started false true 5).result.applied = true ∧
    (ModelStateMachine.transition "m1" "huggingface" (some ⟨some "inactive", 0⟩)
        .download_started false true 5).row
        = some { status := some ModelState.downloading.value, updatedAt := 5 } ∧
    (ModelStateMachine.transition "m1" "huggingface" (some ⟨some "deploying", 0⟩)
        .download_started false true 5).result.applied = false ∧
    (ModelStateMachine.transition "m1" "huggingface" (some ⟨some "deploying", 0⟩)
        .download_started false true 5).row = some ⟨some "deploying", 0⟩ ∧
    (ModelEvent.deploy_completed ∈
        ModelStateMachine.get_valid_transitions (currentStateOfRow ⟨some "deploying", 0⟩) ↔
      ModelStateMachine.can_transition (currentStateOfRow ⟨some "deploying", 0⟩)
        .deploy_completed = true) :=
  ⟨((transition_table_complete_correct "m1" "huggingface" ⟨some "inactive", 0⟩
      .download_started false true 5).1 .downloading (by decide)).1,
   ((transition_table_complete_correct "m1" "huggingface" ⟨some "inactive", 0⟩
      .download_started false true 5).1 .downloading (by decide)).2,
   ((transition_table_complete_correct "m1" "huggingface" ⟨some "deploying", 0⟩
      .download_started false true 5).2 (by decide)).1,
   ((transition_table_complete_correct "m1" "huggingface" ⟨some "deploying", 0⟩
      .download_started false true 5).2 (by decide)).2.2.1,
   ((transition_table_complete_correct "m1" "huggingface" ⟨some "deploying", 0⟩
      .download_started false true 5).2 (by decide)).2.2.2 .deploy_completed⟩

/-- C2: when the best-effort ModelStatus publication fails (`notifyOk =
false`), a legal `transition` still returns `applied = true`, still writes the
new status, and its returned pair, stored row and history coincide with the
successful-publication run: notification failure never rolls back the
transition. -/
theorem transition_notify_failure_no_rollback (modelId modelSource : String)
    (row : ModelRow) (e : ModelEvent) (d : Bool) (now : Nat) (next : ModelState)
    (h : ModelStateMachine.TRANSITIONS (currentStateOfRow row) e = some next) :
    (ModelStateMachine.transition modelId modelSource (some row) e d false now).result.applied
       = true ∧
    (ModelStateMachine.transition modelId modelSource (some row) e d false now).row
       = some { status := some next.value, updatedAt := now } ∧
    (ModelStateMachine.transition modelId modelSource (some row) e d false now).result
       = (ModelStateMachine.transition modelId modelSource (some row) e d true now).result ∧
    (ModelStateMachine.transition modelId modelSource (some row) e d false now).row
       = (ModelStateMachine.transition modelId modelSource (some row) e d true now).row ∧
    (ModelStateMachine.transition modelId modelSource (some row) e d false now).history
       = (ModelStateMachine.transition modelId modelSource (some row) e d true now).history := by
  have hne : currentStateOfRow row ≠ next := TRANSITIONS_irreflexive _ _ _ h
  simp [ModelStateMachine.transition, h, hne]

/-- Witness for C2: a failed publication on (`active`, `deploy_stopped`) still
applies and writes `inactive`. -/
theorem transition_notify_failure_no_rollback_witness :
    (ModelStateMachine.transition "m2" "ollama" (some ⟨some "active", 3⟩)
        .deploy_stopped false false 9).result.applied = true ∧
    (ModelStateMachine.transition "m2" "ollama" (some ⟨some "active", 3⟩)
        .deploy_stopped false false 9).row
       = some { status := some ModelState.inactive.value, updatedAt := 9 } ∧
    (ModelStateMachine.transition "m2" "ollama" (some ⟨some "active", 3⟩)
        .deploy_stopped false false 9).result
       = (ModelStateMachine.transition "m2" "ollama" (some ⟨some "active", 3⟩)
            .deploy_stopped false true 9).result ∧
    (ModelStateMachine.transition "m2" "ollama" (some ⟨some "active", 3⟩)
        .deploy_stopped false false 9).row
       = (ModelStateMachine.transition "m2" "ollama" (some ⟨some "active", 3⟩)
            .deploy_stopped false true 9).row ∧
    (ModelStateMachine.transition "m2" "ollama" (some ⟨some "active", 3⟩)
        .deploy_stopped false false 9).history
       = (ModelStateMachine.transition "m2" "ollama" (some ⟨some "active", 3⟩)
            .deploy_stopped false true 9).history :=
  transition_notify_failure_no_rollback "m2" "ollama" ⟨some "active", 3⟩
    .deploy_stopped false 9 .inactive (by decide)

/-- C3: `force_state` on an existing row succeeds for every current state and
every target without consulting the transition table, writes the target
status, and records the change flagged with `force_set = True` under
`MANUAL_RESET`; records written by `transition` carry only the caller's
`event_data` flag, so the manual override stays distinguishable in history. -/
theorem force_state_bypasses_table (modelId modelSource : String) (row : ModelRow)
    (target : ModelState) (ok : Bool) (now : Nat) :
    (ModelStateMachine.force_state modelId modelSource (some row) target ok now).result
       = ⟨true, none⟩ ∧
    (ModelStateMachine.force_state modelId modelSource (some row) target ok now).row
       = some { status := some target.value, updatedAt := now } ∧
    (ModelStateMachine.force_state modelId modelSource (some row) target ok now).history
       = [⟨row.status, target.value, .manual_reset, true, now⟩] ∧
    (∀ r ∈ (ModelStateMachine.force_state modelId modelSource (some row) target ok now).history,
        r.forceSet = true) ∧
    (∀ mid msrc row2 e d ok2 now2 r,
        r ∈ (ModelStateMachine.transition mid msrc row2 e d ok2 now2).history →
          r.forceSet = d) := by
  refine ⟨rfl, rfl, rfl, ?_, ?_⟩
  · intro r hr
    simp [ModelStateMachine.force_state] at hr
    subst hr
    rfl
  · exact fun mid msrc row2 e d ok2 now2 =>
      transition_history_forceSet mid msrc row2 e d ok2 now2

/-- Witness for C3: forcing `inactive` from `active` succeeds, writes the
target, and its record is force-flagged while a table-driven record is not. -/
theorem force_state_bypasses_table_witness :
    (ModelStateMachine.force_state "m3" "huggingface" (some ⟨some "active", 3⟩)
        .inactive true 7).result = ⟨true, none⟩ ∧
    (ModelStateMachine.force_state "m3" "huggingface" (some ⟨some "active", 3⟩)
        .inactive true 7).row
       = some { status := some ModelState.inactive.value, updatedAt := 7 } ∧
    (ModelStateMachine.force_state "m3" "huggingface" (some ⟨some "active", 3⟩)
        .inactive true 7).history
       = [⟨some "active", ModelState.inactive.value, .manual_reset, true, 7⟩] ∧
    StateChangeRecord.forceSet
        ⟨some "active", ModelState.inactive.value, .manual_reset, true, 7⟩ = true ∧
    StateChangeRecord.forceSet
        ⟨some "active", ModelState.inactive.value, .deploy_stopped, false, 7⟩ = false :=
  ⟨(force_state_bypasses_table "m3" "huggingface" ⟨some "active", 3⟩ .inactive true 7).1,
   (force_state_bypasses_table "m3" "huggingface" ⟨some "active", 3⟩ .inactive true 7).2.1,
   (force_state_bypasses_table "m3" "huggingface" ⟨some "active", 3⟩ .inactive true 7).2.2.1,
   (force_state_bypasses_table "m3" "huggingface" ⟨some "active", 3⟩ .inactive true 7).2.2.2.1
     ⟨some "active", ModelState.inactive.value, .manual_reset, true, 7⟩ (by decide),
   (force_state_bypasses_table "m3" "huggingface" ⟨some "active", 3⟩ .inactive true 7).2.2.2.2
     "m3" "huggingface" (some ⟨some "active", 3⟩) .deploy_stopped false true 7
     ⟨some "active", ModelState.inactive.value, .deploy_stopped, false, 7⟩ (by decide)⟩

/-- C10: with no stored row, both `transition` and `force_state` return
failure with the model-not-found message and touch nothing; the `INACTIVE`
default applies exactly to an existing row whose status is null or
unrecognized, while a recognized stored status is used as-is. -/
theorem missing_model_row_not_found (modelId modelSource : String) (e : ModelEvent)
    (d ok : Bool) (now : Nat) (target : ModelState) :
    (ModelStateMachine.transition modelId modelSource none e d ok now
        = { result := ⟨false, some (ModelStateMachine.modelNotFoundMsg modelId modelSource)⟩,
            row := none, history := [], published := [] }) ∧
    (ModelStateMachine.force_state modelId modelSource none target ok now
        = { result := ⟨false, some (ModelStateMachine.modelNotFoundMsg modelId modelSource)⟩,
            row := none, history := [], published := [] }) ∧
    (∀ row : ModelRow, row.status = none → currentStateOfRow row = .inactive) ∧
    (∀ row : ModelRow, ∀ s, row.status = some s → modelStateOfString s = none →
        currentStateOfRow row = .inactive) ∧
    (∀ row : ModelRow, ∀ s st, row.status = some s → modelStateOfString s = some st →
        currentStateOfRow row = st) := by
  refine ⟨rfl, rfl, ?_, ?_, ?_⟩
  · intro row h
    simp [currentStateOfRow, h]
  · intro row s h1 h2
    simp [currentStateOfRow, h1, h2]
  · intro row s st h1 h2
    simp [currentStateOfRow, h1, h2]

/-- Witness for C10: the not-found results on a missing row, and the default
computation on null, garbage and recognized stored statuses. -/
theorem missing_model_row_not_found_witness :
    (ModelStateMachine.transition "mx" "huggingface" none .download_started false true 1
        = { result := ⟨false, some (ModelStateMachine.modelNotFoundMsg "mx" "huggingface")⟩,
            row := none, history := [], published := [] }) ∧
    (ModelStateMachine.force_state "mx" "huggingface" none .active true 1
        = { result := ⟨false, some (ModelStateMachine.modelNotFoundMsg "mx" "huggingface")⟩,
            row := none, history := [], published := [] }) ∧
    currentStateOfRow ⟨none, 0⟩ = .inactive ∧
    currentStateOfRow ⟨some "garbage", 0⟩ = .inactive ∧
    currentStateOfRow ⟨some "training", 0⟩ = .training :=
  ⟨(missing_model_row_not_found "mx" "huggingface" .download_started false true 1 .active).1,
   (missing_model_row_not_found "mx" "huggingface" .download_started false true 1 .active).2.1,
   (missing_model_row_not_found "mx" "huggingface" .download_started false true 1
      .active).2.2.1 ⟨none, 0⟩ rfl,
   (missing_model_row_not_found "mx" "huggingface" .download_started false true 1
      .active).2.2.2.1 ⟨some "garbage", 0⟩ "garbage" rfl (by decide),
   (missing_model_row_not_found "mx" "huggingface" .download_started false true 1
      .active).2.2.2.2 ⟨some "training", 0⟩ "training" .training rfl (by decide)⟩

/-- Every branch of `check_deployment_health` stores the observed health value. -/
lemma check_health_healthStatus (dep : DeploymentState) (alive : Bool)
    (probe : Option Bool) (now : Nat) :
    (DeploymentService.check_deployment_health dep alive probe now).1.healthStatus
      = observedHealth dep alive probe := by
  unfold DeploymentService.check_deployment_health observedHealth
  split
  · rfl
  · split
    · rfl
    · rcases probe with _ | b
      · rfl
      · cases b <;> rfl

/-- Every branch of `check_deployment_health` stamps the check time. -/
lemma check_health_lastCheck (dep : DeploymentState) (alive : Bool)
    (probe : Option Bool) (now : Nat) :
    (DeploymentService.check_deployment_health dep alive probe now).1.lastHealthCheck
      = some now := by
  unfold DeploymentService.check_deployment_health
  split
  · rfl
  · split
    · rfl
    · rcases probe with _ | b
      · rfl
      · cases b <;> rfl

/-- The returned flag of `check_deployment_health` is exactly the
`update_health_status` edge condition on the observed value. -/
lemma check_health_flag (dep : DeploymentState) (alive : Bool)
    (probe : Option Bool) (now : Nat) :
    ((DeploymentService.check_deployment_health dep alive probe now).2 = true ↔
      (observedHealth dep alive probe = "unhealthy" ∧ dep.healthStatus ≠ "unhealthy")) := by
  unfold DeploymentService.check_deployment_health observedHealth
    Deployment.update_health_status
  split
  · simp
  · split
    · simp
    · rcases probe with _ | b
      · simp
      · cases b <;> simp

/-- C4: each `checkHealth` call records the observed health value and the
check time, and raises the `HEALTH_CHECK_FAILED` model event exactly when the
observed value is `unhealthy` while the previously recorded `health_status`
was not `unhealthy`; consequently a second consecutive unhealthy observation
never raises it again. -/
theorem check_health_edge_triggered (dep : DeploymentState) (alive : Bool)
    (probe : Option Bool) (now : Nat) :
    (DeploymentService.check_deployment_health dep alive probe now).1.healthStatus
       = observedHealth dep alive probe ∧
    (DeploymentService.check_deployment_health dep alive probe now).1.lastHealthCheck
       = some now ∧
    ((DeploymentService.check_deployment_health dep alive probe now).2 = true ↔
       (observedHealth dep alive probe = "unhealthy" ∧ dep.healthStatus ≠ "unhealthy")) ∧
    (observedHealth dep alive probe = "unhealthy" →
      ∀ alive2 probe2 now2,
        observedHealth (DeploymentService.check_deployment_health dep alive probe now).1
            alive2 probe2 = "unhealthy" →
        (DeploymentService.check_deployment_health
            (DeploymentService.check_deployment_health dep alive probe now).1
            alive2 probe2 now2).2 = false) := by
  refine ⟨check_health_healthStatus dep alive probe now,
          check_health_lastCheck dep alive probe now,
          check_health_flag dep alive probe now, ?_⟩
  intro h1 alive2 probe2 now2 h2
  by_contra hne
  have hflag := (check_health_flag
    (DeploymentService.check_deployment_health dep alive probe now).1
    alive2 probe2 now2).mp (by revert hne; cases (DeploymentService.check_deployment_health
      (DeploymentService.check_deployment_health dep alive probe now).1
      alive2 probe2 now2).2 <;> simp)
  exact hflag.2 ((check_health_healthStatus dep alive probe now).trans h1)

/-- Witness for C4: a running deployment with a previously healthy record
raises the event on the first unhealthy probe and not on the second. -/
theorem check_health_edge_triggered_witness :
    (DeploymentService.check_deployment_health ⟨"running", "healthy", none⟩
        true (some false) 1).1.healthStatus
       = observedHealth ⟨"running", "healthy", none⟩ true (some false) ∧
    (DeploymentService.check_deployment_health ⟨"running", "healthy", none⟩
        true (some false) 1).1.lastHealthCheck = some 1 ∧
    ((DeploymentService.check_deployment_health ⟨"running", "healthy", none⟩
        true (some false) 1).2 = true ↔
      (observedHealth ⟨"running", "healthy", none⟩ true (some false) = "unhealthy" ∧
        DeploymentState.healthStatus ⟨"running", "healthy", none⟩ ≠ "unhealthy")) ∧
    (DeploymentService.check_deployment_health
        (DeploymentService.check_deployment_health ⟨"running", "healthy", none⟩
          true (some false) 1).1 true (some false) 2).2 = false :=
  ⟨(check_health_edge_triggered ⟨"running", "healthy", none⟩ true (some false) 1).1,
   (check_health_edge_triggered ⟨"running", "healthy", none⟩ true (some false) 1).2.1,
   (check_health_edge_triggered ⟨"running", "healthy", none⟩ true (some false) 1).2.2.1,
   (check_health_edge_triggered ⟨"running", "healthy", none⟩ true (some false) 1).2.2.2
     (by decide) true (some false) 2 (by decide)⟩

/-- Field-level behaviour of one `update_progress` call with a positive known
total: the reported bytes are stored, the status is untouched, the total is
recorded, and the percentage is recomputed from the stored values. -/
lemma update_progress_fields (t : DownloadTaskRow) (ds ts : Nat) (sp : Option ℚ)
    (now : Nat) (h : 0 < ts) :
    (DownloadTask.update_progress t ds (some ts) sp now).downloadSize = ds ∧
    (DownloadTask.update_progress t ds (some ts) sp now).status = t.status ∧
    (DownloadTask.update_progress t ds (some ts) sp now).totalSize = some ts ∧
    (DownloadTask.update_progress t ds (some ts) sp now).progress
      = 100 * (ds : ℚ) / ts := by
  have hne : ts ≠ 0 := h.ne'
  rcases sp with _ | s
  · refine ⟨?_, ?_, ?_, ?_⟩ <;> simp [DownloadTask.update_progress, hne, h]
    try ring
  · by_cases hs : s = 0
    · refine ⟨?_, ?_, ?_, ?_⟩ <;> simp [DownloadTask.update_progress, hne, h, hs]
      try ring
    · refine ⟨?_, ?_, ?_, ?_⟩ <;> simp [DownloadTask.update_progress, hne, h, hs]
      try ring

/-- Behaviour of the in-repo progress pipeline over a whole download: the
tracker's accumulated byte count is stored monotonically, the status column is
never touched, and the percentage always equals the stored ratio. -/
lemma progressTrajectory_spec (total : Nat) (htot : 0 < total) :
    ∀ (evs : List ProgressEvent) (t : DownloadTaskRow) (acc : Nat),
      t.downloadSize = acc →
      (List.Chain' (fun a b => a.downloadSize ≤ b.downloadSize)
          (t :: progressTrajectory t acc total evs) ∧
       ∀ u ∈ progressTrajectory t acc total evs,
         u.status = t.status ∧ u.totalSize = some total ∧
           u.progress = 100 * (u.downloadSize : ℚ) / total) := by
  intro evs
  induction evs with
  | nil =>
    intro t acc hacc
    exact ⟨List.chain'_singleton t, by simp [progressTrajectory]⟩
  | cons ev rest ih =>
    intro t acc hacc
    obtain ⟨f1, f2, f3, f4⟩ :=
      update_progress_fields t (acc + ev.fileSize) total ev.speed ev.time htot
    obtain ⟨ch, mem⟩ :=
      ih (DownloadTask.update_progress t (acc + ev.fileSize) (some total) ev.speed ev.time)
        (acc + ev.fileSize) f1
    constructor
    · refine List.chain'_cons.mpr ⟨?_, ch⟩
      rw [hacc, f1]
      exact Nat.le_add_right acc ev.fileSize
    · intro u hu
      rcases List.mem_cons.mp hu with rfl | hu2
      · exact ⟨f2, f3, by rw [f4, f1]⟩
      · obtain ⟨m1, m2, m3⟩ := mem u hu2
        exact ⟨m1.trans f2, m2, m3⟩

/-- C5 as amended: across the download pipeline's successive progress updates
the stored byte count never decreases, the status column is untouched (it
stays `downloading`), and the percentage equals `100 * downloaded / total`;
`progress = 100` is reached exactly when the downloaded bytes equal the total
— which can happen while the status is still `downloading` — and
`complete_download` is what pairs `progress = 100` with `status = completed`. -/
theorem download_progress_invariants_amended (t : DownloadTaskRow)
    (acc total : Nat) (evs : List ProgressEvent)
    (hacc : t.downloadSize = acc) (htot : 0 < total) :
    List.Chain' (fun a b => a.downloadSize ≤ b.downloadSize)
        (t :: progressTrajectory t acc total evs) ∧
    (∀ u ∈ progressTrajectory t acc total evs,
        u.status = t.status ∧ u.totalSize = some total ∧
          u.progress = 100 * (u.downloadSize : ℚ) / total) ∧
    (∀ u ∈ progressTrajectory t acc total evs,
        (u.progress = 100 ↔ u.downloadSize = total)) ∧
    (∀ (s : DownloadTaskRow) (now2 : Nat),
        (DownloadTask.complete_download s now2).1.status = "completed" ∧
        (DownloadTask.complete_download s now2).1.progress = 100) := by
  obtain ⟨ch, mem⟩ := progressTrajectory_spec total htot evs t acc hacc
  refine ⟨ch, mem, ?_, fun s now2 => ⟨rfl, rfl⟩⟩
  intro u hu
  obtain ⟨_, _, hprog⟩ := mem u hu
  rw [hprog]
  have htq : (total : ℚ) ≠ 0 := Nat.cast_ne_zero.mpr htot.ne'
  rw [div_eq_iff htq]
  constructor
  · intro h
    have : (u.downloadSize : ℚ) = (total : ℚ) := by
      have h100 : (100 : ℚ) ≠ 0 := by norm_num
      exact mul_left_cancel₀ h100 (by linarith [h])
    exact_mod_cast this
  · intro h
    rw [h]

/-- Witness for C5 amended: two tracker callbacks of 500 bytes against a
1000-byte total produce 50 percent then 100 percent, never decrease, and keep
the status `downloading`; `complete_download` then stamps `completed` with
100. -/
theorem download_progress_invariants_amended_witness :
    List.Chain' (fun a b => a.downloadSize ≤ b.downloadSize)
        (⟨"downloading", 0, 0, some 1000, none, some "/d/m", 0, none⟩ ::
          progressTrajectory ⟨"downloading", 0, 0, some 1000, none, some "/d/m", 0, none⟩
            0 1000 [⟨500, none, 1⟩, ⟨500, none, 2⟩]) ∧
    ((DownloadTask.update_progress
        (DownloadTask.update_progress
          ⟨"downloading", 0, 0, some 1000, none, some "/d/m", 0, none⟩
          (0 + 500) (some 1000) none 1)
        (0 + 500 + 500) (some 1000) none 2).progress = 100 ↔
      (DownloadTask.update_progress
        (DownloadTask.update_progress
          ⟨"downloading", 0, 0, some 1000, none, some "/d/m", 0, none⟩
          (0 + 500) (some 1000) none 1)
        (0 + 500 + 500) (some 1000) none 2).downloadSize = 1000) ∧
    (DownloadTask.complete_download
        ⟨"downloading", 100, 1000, some 1000, none, some "/d/m", 2, none⟩ 9).1.status
      = "completed" ∧
    (DownloadTask.complete_download
        ⟨"downloading", 100, 1000, some 1000, none, some "/d/m", 2, none⟩ 9).1.progress
      = 100 :=
  ⟨(download_progress_invariants_amended
      ⟨"downloading", 0, 0, some 1000, none, some "/d/m", 0, none⟩ 0 1000
      [⟨500, none, 1⟩, ⟨500, none, 2⟩] rfl (by decide)).1,
   (download_progress_invariants_amended
      ⟨"downloading", 0, 0, some 1000, none, some "/d/m", 0, none⟩ 0 1000
      [⟨500, none, 1⟩, ⟨500, none, 2⟩] rfl (by decide)).2.2.1
     (DownloadTask.update_progress
       (DownloadTask.update_progress
         ⟨"downloading", 0, 0, some 1000, none, some "/d/m", 0, none⟩
         (0 + 500) (some 1000) none 1)
       (0 + 500 + 500) (some 1000) none 2)
     (by simp [progressTrajectory]),
   ((download_progress_invariants_amended
      ⟨"downloading", 0, 0, some 1000, none, some "/d/m", 0, none⟩ 0 1000
      [⟨500, none, 1⟩, ⟨500, none, 2⟩] rfl (by decide)).2.2.2
     ⟨"downloading", 100, 1000, some 1000, none, some "/d/m", 2, none⟩ 9).1,
   ((download_progress_invariants_amended
      ⟨"downloading", 0, 0, some 1000, none, some "/d/m", 0, none⟩ 0 1000
      [⟨500, none, 1⟩, ⟨500, none, 2⟩] rfl (by decide)).2.2.2
     ⟨"downloading", 100, 1000, some 1000, none, some "/d/m", 2, none⟩ 9).2⟩

/-- Counterexample for C5 as stated: a progress update that reports all bytes
downloaded sets `progress = 100` while the status is still `downloading`, so
`progress = 100` does not imply `status = completed`. -/
theorem progress_hundred_while_downloading_cex :
    (DownloadTask.update_progress
        ⟨"downloading", 0, 0, some 100, none, some "/d/m", 0, none⟩
        100 (some 100) none 7).progress = 100 ∧
    (DownloadTask.update_progress
        ⟨"downloading", 0, 0, some 100, none, some "/d/m", 0, none⟩
        100 (some 100) none 7).status = "downloading" ∧
    ("downloading" : String) ≠ "completed" := by
  refine ⟨?_, rfl, by decide⟩
  norm_num [DownloadTask.update_progress]

/-- C7: pausing a `downloading` task sets the task to `paused` and raises no
state-machine event, so folding the (empty) raised events over the stored
model row leaves the model's aggregate status exactly as it was; pausing a
task in any other state fails with a `ValidationError` before any mutation. -/
theorem pause_no_state_event (t : DownloadTaskRow) (now : Nat) :
    (t.status = "downloading" →
      DownloadService.pause_download (some t) now
        = .ok ({ t with status := "paused", updatedAt := now }, []) ∧
      ∀ mid msrc row?,
        applyModelEvents mid msrc row?
          (DownloadTask.pause_download t now).2 now = row?) ∧
    (t.status ≠ "downloading" →
      DownloadService.pause_download (some t) now = .error .validationError) := by
  constructor
  · intro h
    constructor
    · unfold DownloadService.pause_download
      dsimp only
      rw [if_neg (by simp [h])]
      rfl
    · intro mid msrc row?
      rfl
  · intro h
    unfold DownloadService.pause_download
    dsimp only
    rw [if_pos h]

/-- Witness for C7: pausing a concrete `downloading` task yields `paused`
with no events and the model row `downloading` is untouched; pausing a
`pending` task fails. -/
theorem pause_no_state_event_witness :
    DownloadService.pause_download
        (some ⟨"downloading", 50, 500, some 1000, none, some "/d/m", 1, none⟩) 4
      = .ok (({ status := "paused", progress := 50, downloadSize := 500,
                totalSize := some 1000, downloadSpeed := none,
                filePath := some "/d/m", updatedAt := 4, completedAt := none }
              : DownloadTaskRow), []) ∧
    applyModelEvents "m7" "huggingface" (some ⟨some "downloading", 0⟩)
        (DownloadTask.pause_download
          ⟨"downloading", 50, 500, some 1000, none, some "/d/m", 1, none⟩ 4).2 4
      = some ⟨some "downloading", 0⟩ ∧
    DownloadService.pause_download
        (some ⟨"pending", 0, 0, none, none, some "/d/m", 1, none⟩) 4
      = .error .validationError :=
  ⟨((pause_no_state_event
      ⟨"downloading", 50, 500, some 1000, none, some "/d/m", 1, none⟩ 4).1 rfl).1,
   ((pause_no_state_event
      ⟨"downloading", 50, 500, some 1000, none, some "/d/m", 1, none⟩ 4).1 rfl).2
     "m7" "huggingface" (some ⟨some "downloading", 0⟩),
   (pause_no_state_event
      ⟨"pending", 0, 0, none, none, some "/d/m", 1, none⟩ 4).2 (by decide)⟩

/-- C8: cancelling a task that is neither `completed` nor `cancelled` sets it
to `cancelled`, raises `download_cancelled`, and removes whatever sits at its
`file_path` (a file by `os.remove`, a directory with all its entries by the
recursive `shutil.rmtree`); a second cancel on the now-`cancelled` task fails
with a `ValidationError` and performs no mutation. -/
theorem cancel_removes_files_and_second_cancel_fails (t : DownloadTaskRow)
    (p : String) (fs : FsEntry) (now now2 : Nat)
    (hst : ¬(t.status = "completed" ∨ t.status = "cancelled"))
    (hp : t.filePath = some p) :
    DownloadService.cancel_download (some t) fs now
      = .ok ({ t with status := "cancelled", updatedAt := now },
             [.download_cancelled], .absent) ∧
    ModelEvent.download_cancelled
      ∈ (DownloadTask.cancel_download t now).2 ∧
    DownloadService.cancel_download
        (some { t with status := "cancelled", updatedAt := now }) .absent now2
      = .error .validationError := by
    refine ⟨?_, by simp [DownloadTask.cancel_download], ?_⟩
    · unfold DownloadService.cancel_download
      dsimp only
      rw [if_neg hst]
      simp only [DownloadTask.cancel_download]
      rw [show ({ t with status := "cancelled", updatedAt := now }
            : DownloadTaskRow).filePath = some p from hp]
      cases fs <;> rfl
    · unfold DownloadService.cancel_download
      dsimp only
      rw [if_pos (Or.inr rfl)]

/-- Witness for C8: cancelling a `downloading` task whose path is a directory
with two entries removes it recursively, raises `download_cancelled`, and a
second cancel fails. -/
theorem cancel_removes_files_and_second_cancel_fails_witness :
    DownloadService.cancel_download
        (some ⟨"downloading", 50, 500, some 1000, none, some "/d/m", 1, none⟩)
        (.dir ["a", "b"]) 5
      = .ok (({ status := "cancelled", progress := 50, downloadSize := 500,
                totalSize := some 1000, downloadSpeed := none,
                filePath := some "/d/m", updatedAt := 5, completedAt := none }
              : DownloadTaskRow),
             [.download_cancelled], .absent) ∧
    ModelEvent.download_cancelled
      ∈ (DownloadTask.cancel_download
          ⟨"downloading", 50, 500, some 1000, none, some "/d/m", 1, none⟩ 5).2 ∧
    DownloadService.cancel_download
        (some ({ status := "cancelled", progress := 50, downloadSize := 500,
                 totalSize := some 1000, downloadSpeed := none,
                 filePath := some "/d/m", updatedAt := 5, completedAt := none }
               : DownloadTaskRow)) .absent 6
      = .error .validationError :=
  cancel_removes_files_and_second_cancel_fails
    ⟨"downloading", 50, 500, some 1000, none, some "/d/m", 1, none⟩
    "/d/m" (.dir ["a", "b"]) 5 6 (by decide) rfl

/-- Characterization of `find?` over an ascending integer range: it returns
`p` exactly when `p` is in the range, satisfies the predicate, and every
earlier point of the range fails it. -/
lemma find?_range'_eq_some (pred : Nat → Bool) :
    ∀ (len start p : Nat),
      ((List.range' start len).find? pred = some p ↔
        (start ≤ p ∧ p < start + len ∧ pred p = true ∧
          ∀ q, start ≤ q → q < p → pred q = false)) := by
  intro len
  induction len with
  | zero => intro start p; simp [List.range']; omega
  | succ n ih =>
    intro start p
    rw [List.range'_succ]
    by_cases hp0 : pred start = true
    · rw [List.find?_cons_of_pos _ hp0]
      constructor
      · intro h
        injection h with h
        subst h
        exact ⟨le_refl _, by omega, hp0, fun q hq1 hq2 => absurd hq1 (by omega)⟩
      · rintro ⟨h1, h2, h3, h4⟩
        by_cases hps : p = start
        · subst hps; rfl
        · have hq := h4 start (le_refl _) (by omega)
          rw [hp0] at hq
          cases hq
    · rw [List.find?_cons_of_neg _ (by simp [hp0])]
      rw [ih (start + 1) p]
      have hb : pred start = false := by
        cases hcs : pred start
        · rfl
        · exact absurd hcs hp0
      constructor
      · rintro ⟨h1, h2, h3, h4⟩
        refine ⟨by omega, by omega, h3, ?_⟩
        intro q hq1 hq2
        by_cases hqs : q = start
        · subst hqs; exact hb
        · exact h4 q (by omega) hq2
      · rintro ⟨h1, h2, h3, h4⟩
        have hps : p ≠ start := by
          rintro rfl
          rw [h3] at hb
          cases hb
        exact ⟨by omega, by omega, h3, fun q hq1 hq2 => h4 q (by omega) hq2⟩

/-- C9: with a positive preferred port, deployment creation returns exactly
that port when no listening socket is bound to it and fails otherwise; with no
preferred port it scans 8000 through 9000 ascending and returns the first
unbound port, failing only when every port of the range is bound. -/
theorem allocate_port_spec (isBound : Nat → Bool) :
    (∀ p, 0 < p →
      ((isBound p = false →
          DeploymentService.create_deployment_port (some p) isBound = .ok p) ∧
       (isBound p = true →
          DeploymentService.create_deployment_port (some p) isBound
            = .error .validationError))) ∧
    (∀ p, DeploymentService.create_deployment_port none isBound = .ok p ↔
      (8000 ≤ p ∧ p ≤ 9000 ∧ isBound p = false ∧
        ∀ q, 8000 ≤ q → q < p → isBound q = true)) ∧
    ((∀ q, 8000 ≤ q → q ≤ 9000 → isBound q = true) →
      DeploymentService.create_deployment_port none isBound
        = .error .validationError) := by
  have hchar : ∀ p, SystemService.find_available_port isBound 8000 9000 = some p ↔
      (8000 ≤ p ∧ p ≤ 9000 ∧ isBound p = false ∧
        ∀ q, 8000 ≤ q → q < p → isBound q = true) := by
    intro p
    unfold SystemService.find_available_port SystemService.check_port_availability
    rw [find?_range'_eq_some (fun q => !isBound q) (9000 + 1 - 8000) 8000 p]
    constructor
    · rintro ⟨h1, h2, h3, h4⟩
      refine ⟨h1, by omega, by simpa using h3, ?_⟩
      intro q hq1 hq2
      have := h4 q hq1 hq2
      simpa using this
    · rintro ⟨h1, h2, h3, h4⟩
      refine ⟨h1, by omega, by simpa using h3, ?_⟩
      intro q hq1 hq2
      simpa using h4 q hq1 hq2
  refine ⟨?_, ?_, ?_⟩
  · intro p hp
    have hp0 : p ≠ 0 := hp.ne'
    constructor
    · intro hfree
      unfold DeploymentService.create_deployment_port DeploymentService.allocate_port
      dsimp only
      rw [if_pos hp0]
      rw [show SystemService.check_port_availability isBound p = true by
            simp [SystemService.check_port_availability, hfree]]
      simp [hp0]
    · intro hbound
      unfold DeploymentService.create_deployment_port DeploymentService.allocate_port
      dsimp only
      rw [if_pos hp0]
      rw [show SystemService.check_port_availability isBound p = false by
            simp [SystemService.check_port_availability, hbound]]
      simp
  · intro p
    unfold DeploymentService.create_deployment_port DeploymentService.allocate_port
    dsimp only
    cases hf : SystemService.find_available_port isBound 8000 9000 with
    | none =>
      simp only
      constructor
      · intro h; cases h
      · rintro ⟨h1, h2, h3, h4⟩
        have := (hchar p).mpr ⟨h1, h2, h3, h4⟩
        rw [hf] at this
        cases this
    | some q =>
      have hq := (hchar q).mp hf
      have hq0 : q ≠ 0 := by omega
      simp only [if_pos hq0]
      constructor
      · intro h
        injection h with h
        subst h
        exact hq
      · rintro ⟨h1, h2, h3, h4⟩
        have : SystemService.find_available_port isBound 8000 9000 = some p :=
          (hchar p).mpr ⟨h1, h2, h3, h4⟩
        rw [hf] at this
        injection this with this
        rw [this]
  · intro hall
    unfold DeploymentService.create_deployment_port DeploymentService.allocate_port
    dsimp only
    have hnone : SystemService.find_available_port isBound 8000 9000 = none := by
      unfold SystemService.find_available_port SystemService.check_port_availability
      rw [List.find?_eq_none]
      intro a ha
      have hmem := List.mem_range'_1.mp ha
      have := hall a (by omega) (by omega)
      simp [this]
    rw [hnone]

/-- Witness for C9: with only port 8000 bound, a free preferred port 8080 is
accepted, the bound preferred port 8000 is rejected, the scan returns 8001,
and with every port bound the scan fails. -/
theorem allocate_port_spec_witness :
    DeploymentService.create_deployment_port (some 8080) (fun p => p == 8000)
      = .ok 8080 ∧
    DeploymentService.create_deployment_port (some 8000) (fun p => p == 8000)
      = .error .validationError ∧
    DeploymentService.create_deployment_port none (fun p => p == 8000)
      = .ok 8001 ∧
    DeploymentService.create_deployment_port none (fun _ => true)
      = .error .validationError :=
  ⟨((allocate_port_spec (fun p => p == 8000)).1 8080 (by decide)).1 rfl,
   ((allocate_port_spec (fun p => p == 8000)).1 8000 (by decide)).2 rfl,
   ((allocate_port_spec (fun p => p == 8000)).2.1 8001).mpr
     ⟨by decide, by decide, rfl, by
        intro q h1 h2
        have hq : q = 8000 := by omega
        subst hq
        rfl⟩,
   (allocate_port_spec (fun _ => true)).2.2 (fun q h1 h2 => rfl)⟩

end LlmManager
